import Mathlib

/-!
Shallow embedding of the authentication / task-lifecycle slice of the
Task-Management-API Go backend, together with theorems checking the
natural-language specification against it.

Conventions of the embedding:
* Go `time.Time` values are unix instants modelled as `Int`; Go's strict
  `t.Before(u)` is `t < u`.
* Mongo `primitive.ObjectID` is modelled as its hex representation, a
  `String`.
* A fallible Go call returning `(T, error)` becomes `Except String T`;
  a Go `*T` becomes `Option T` (`none` = nil pointer).
* The document store behind a repository is a pure `List` of documents;
  `FindOne` is `List.find?`.
* A Go nil-pointer dereference is made explicit as a distinguished
  `panic`-like constructor of the operation's outcome type.
-/

namespace TaskMgmt

/-- Status constants from `Domain` (`domain.go`): `StatusPending`,
`StatusInProgress`, `StatusCompleted`. -/
def StatusPending : String := "pending"

/-- `domain.StatusInProgress`. -/
def StatusInProgress : String := "in_progress"

/-- `domain.StatusCompleted`. -/
def StatusCompleted : String := "completed"

/-- `domain.Task` (Domain/domain.go): id, title, description, due date,
status, owning user id, created/updated timestamps. -/
structure Task where
  id : String
  title : String
  description : String
  dueDate : Int
  status : String
  userID : String
  createdAt : Int
  updatedAt : Int
deriving DecidableEq, Repr

/-- `domain.User` (Domain/domain.go). -/
structure User where
  id : String
  name : String
  email : String
  password : String
  role : String
deriving DecidableEq, Repr

/-- `taskRepository.GetByID` (Repository/task_repository.go lines 91-101):
`FindOne` by `_id`; a decode hit returns the task, `mongo.ErrNoDocuments`
is translated to `(nil, nil)` — absence is signalled as a nil task with a
nil error, i.e. `.ok none`. -/
def taskRepoGetByID (store : List Task) (id : String) : Except String (Option Task) :=
  Except.ok (store.find? fun t => t.id = id)

/-- `taskRepository.Update` (Repository/task_repository.go lines 139-153):
`UpdateOne` with a `$set` of the whole task on the matching `_id`. On a
pure store this replaces the matching document. -/
def taskRepoUpdate (store : List Task) (task : Task) : List Task :=
  store.map fun t => if t.id = task.id then task else t

/-- Outcome of `taskUseCase.CreateTask`: either a validation/storage error,
or the task as handed to `taskRepo.Create` (status forced). -/
inductive CreateOutcome where
  | err (msg : String)
  | created (task : Task)
deriving DecidableEq, Repr

/-- `taskUseCase.CreateTask` (Usecases/task_usecases.go lines 23-36):
reject empty title; reject `task.DueDate.Before(time.Now())`; force
`task.Status = domain.StatusPending`; delegate to `taskRepo.Create`.
`now` is the call-time instant. `created t` means `taskRepo.Create` was
invoked with `t`. -/
def CreateTask (now : Int) (task : Task) : CreateOutcome :=
  if task.title = "" then .err "task title is required"
  else if task.dueDate < now then .err "due date cannot be in the past"
  else .created { task with status := StatusPending }

/-- Outcome of `taskUseCase.UpdateTask`: a returned error, the Go
nil-pointer panic on `existingTask.Status`, or a delegated
`taskRepo.Update` producing the new store. -/
inductive UpdateOutcome where
  | err (msg : String)
  | panicNilDeref
  | updated (newStore : List Task)
deriving DecidableEq, Repr

/-- `taskUseCase.UpdateTask` (Usecases/task_usecases.go lines 55-76):
validate title and due date as in create; fetch the existing task via
`taskRepo.GetByID`; read `existingTask.Status` with no nil guard (a
`.ok none` fetch is therefore a nil dereference); reject a change away
from a completed status; otherwise delegate to `taskRepo.Update`. -/
def UpdateTask (store : List Task) (now : Int) (task : Task) : UpdateOutcome :=
  if task.title = "" then .err "task title is required"
  else if task.dueDate < now then .err "due date cannot be in the past"
  else
    match taskRepoGetByID store task.id with
    | .error e => .err e
    | .ok none => .panicNilDeref
    | .ok (some existingTask) =>
      if existingTask.status = StatusCompleted ∧ task.status ≠ StatusCompleted then
        .err "cannot change status of completed task"
      else
        .updated (taskRepoUpdate store task)

/-- `infrastructure.Claims` (jwt_service.go): JWT claims carrying the
subject's user id and role plus the standard issued-at / expires-at
fields (unix seconds). -/
structure Claims where
  userID : String
  role : String
  expiresAt : Int
  issuedAt : Int
deriving DecidableEq, Repr

/-- A value stored in the gin request context (`c.Set` stores
`interface{}`); the code at hand stores either strings or `*Claims`. -/
inductive CtxVal where
  | str (s : String)
  | claims (c : Claims)
deriving DecidableEq, Repr

/-- The gin request context's key/value store (`c.Set` / `c.Get`). -/
abbrev Ctx : Type := List (String × CtxVal)

/-- `c.Get key`: lookup of a previously `Set` value. -/
def ctxGet (ctx : Ctx) (key : String) : Option CtxVal :=
  (ctx.find? fun p => p.1 = key).map (·.2)

/-- `c.Set key value`. -/
def ctxSet (ctx : Ctx) (key : String) (v : CtxVal) : Ctx :=
  (key, v) :: ctx

/-- Outcome of one gin middleware: `abort status msg` models
`c.JSON(status, gin.H{"error": msg}); c.Abort()`, and `next ctx` models
`c.Next()` with the possibly-updated context. -/
inductive MWResult where
  | abort (status : Nat) (msg : String)
  | next (ctx : Ctx)
deriving DecidableEq, Repr

/-- Helper for `splitOnSpace`, structurally recursive over the character
list. -/
def splitCharsOnSpace : List Char → List (List Char)
  | [] => [[]]
  | c :: cs =>
    let rest := splitCharsOnSpace cs
    if c = ' ' then [] :: rest
    else
      match rest with
      | [] => [[c]]
      | r :: rs => (c :: r) :: rs

/-- Go's `strings.Split(s, " ")`: split on every single space, keeping
empty fields. -/
def splitOnSpace (s : String) : List String :=
  (splitCharsOnSpace s.toList).map List.asString

/-- `infrastructure.AuthMiddleware` (auth_middleware.go lines 11-39):
empty `Authorization` header → 401 `"authorization header is required"`;
header not exactly `Bearer <token>` → 401
`"invalid authorization header format"`; token validation failure → 401
`"invalid token"`; on success the claims are stored in the context under
the key `"claims"` and the chain continues. -/
def AuthMiddleware (validateToken : String → Except String Claims)
    (authHeader : String) (ctx : Ctx) : MWResult :=
  if authHeader = "" then .abort 401 "authorization header is required"
  else
    match splitOnSpace authHeader with
    | [scheme, token] =>
      if scheme = "Bearer" then
        match validateToken token with
        | .error _ => .abort 401 "invalid token"
        | .ok claims => .next (ctxSet ctx "claims" (.claims claims))
      else .abort 401 "invalid authorization header format"
    | _ => .abort 401 "invalid authorization header format"

/-- `infrastructure.AdminMiddleware` (auth_middleware.go lines 42-52):
reads the context key `"role"`; continues only when it holds the string
`"admin"`, otherwise 403 `"admin access required"`. -/
def AdminMiddleware (ctx : Ctx) : MWResult :=
  match ctxGet ctx "role" with
  | some v => if v = .str "admin" then .next ctx else .abort 403 "admin access required"
  | none => .abort 403 "admin access required"

/-- The admin route chain of `SetupRouter` (router.go line 41):
`authMiddleware` then `adminMiddleware`. -/
def authThenAdmin (validateToken : String → Except String Claims)
    (authHeader : String) (ctx : Ctx) : MWResult :=
  match AuthMiddleware validateToken authHeader ctx with
  | .abort s m => .abort s m
  | .next ctx' => AdminMiddleware ctx'

/-- Outcome of the create-task HTTP handler: an error response, a 201
creation carrying the task handed to the use case's repository, or the Go
panic of the unchecked type assertion `userID.(string)`. -/
inductive HandlerResult where
  | response (status : Nat) (msg : String)
  | created (task : Task)
  | panicTypeAssert
deriving DecidableEq, Repr

/-- `primitive.ObjectIDFromHex`: succeeds exactly on a 24-character hex
string. -/
def objectIDFromHex (s : String) : Except String String :=
  if s.length = 24 ∧ s.toList.all (fun c =>
      c.isDigit ∨ ('a' ≤ c ∧ c ≤ 'f') ∨ ('A' ≤ c ∧ c ≤ 'F')) then
    .ok s
  else .error "the provided hex string is not a valid ObjectID"

/-- `TaskControllerImpl.CreateTask` (Delivery/controllers/controller.go
lines 114-145): read the context key `"user_id"` (401 `"unauthorized"`
when absent), assert it to a string (panic otherwise), parse it as an
ObjectID (400 `"Invalid user ID"` on failure), overwrite the body task's
`UserID` with it, and run the task use case's `CreateTask`; a use-case
error becomes a 400 with its message, success a 201. The JSON body is
modelled as the already-bound task `body`. -/
def CreateTaskHandler (now : Int) (ctx : Ctx) (body : Task) : HandlerResult :=
  match ctxGet ctx "user_id" with
  | none => .response 401 "unauthorized"
  | some (.claims _) => .panicTypeAssert
  | some (.str s) =>
    match objectIDFromHex s with
    | .error _ => .response 400 "Invalid user ID"
    | .ok uid =>
      match CreateTask now { body with userID := uid } with
      | .err e => .response 400 e
      | .created t => .created t

/-- The protected create-task route of `SetupRouter` (router.go line 32):
`authMiddleware` then the create-task handler. -/
def authThenCreateTask (validateToken : String → Except String Claims)
    (authHeader : String) (ctx : Ctx) (now : Int) (body : Task) : HandlerResult :=
  match AuthMiddleware validateToken authHeader ctx with
  | .abort s m => .response s m
  | .next ctx' => CreateTaskHandler now ctx' body

/-- Looking up one key after setting a different key reads the original
context. -/
theorem ctxGet_set_ne (ctx : Ctx) (k k' : String) (v : CtxVal) (h : ¬ k = k') :
    ctxGet (ctxSet ctx k v) k' = ctxGet ctx k' := by
  unfold ctxGet ctxSet
  rw [List.find?_cons_of_neg]
  simp [h]

/-- A successful run of the authentication gate only adds the key
`"claims"`: it produces the incoming context with
`("claims", claims)` prepended. -/
theorem authMiddleware_next_eq (validateToken : String → Except String Claims)
    (authHeader : String) (ctx ctx' : Ctx)
    (hauth : AuthMiddleware validateToken authHeader ctx = .next ctx') :
    ∃ claims, ctx' = ctxSet ctx "claims" (.claims claims) := by
  unfold AuthMiddleware at hauth
  split at hauth
  · cases hauth
  · split at hauth
    · split at hauth
      · split at hauth
        · cases hauth
        · cases hauth
          exact ⟨_, rfl⟩
      · cases hauth
    · cases hauth

/-- C1: in the admin route chain `authMiddleware, adminMiddleware`, every
request that passes the authentication gate — whatever the validated
Claims, including role `"admin"` — is rejected by the admin gate with 403
`"admin access required"`, because the authentication gate stores the
claims under the context key `"claims"` while the admin gate reads the
never-set key `"role"`. The request context starts without a `"role"`
entry. -/
theorem adminChain_rejects_authenticated
    (validateToken : String → Except String Claims)
    (authHeader : String) (ctx0 ctx' : Ctx)
    (hrole : ctxGet ctx0 "role" = none)
    (hauth : AuthMiddleware validateToken authHeader ctx0 = .next ctx') :
    authThenAdmin validateToken authHeader ctx0 = .abort 403 "admin access required" := by
  obtain ⟨claims, hctx⟩ := authMiddleware_next_eq _ _ _ _ hauth
  subst hctx
  unfold authThenAdmin
  rw [hauth]
  show AdminMiddleware (ctxSet ctx0 "claims" (.claims claims)) =
    .abort 403 "admin access required"
  unfold AdminMiddleware
  rw [ctxGet_set_ne _ _ _ _ (by decide), hrole]

/-- Witness for C1: a validator that accepts the token with Claims of role
`"admin"`, header `"Bearer tok"`, empty initial context — the chain still
answers 403 `"admin access required"`. -/
theorem adminChain_rejects_authenticated_witness :
    ctxGet [] "role" = none ∧
      AuthMiddleware (fun _ => .ok ⟨"u1", "admin", 86400, 0⟩) "Bearer tok" [] =
        .next [("claims", .claims ⟨"u1", "admin", 86400, 0⟩)] ∧
      authThenAdmin (fun _ => .ok ⟨"u1", "admin", 86400, 0⟩) "Bearer tok" [] =
        .abort 403 "admin access required" :=
  ⟨by decide, by decide,
    adminChain_rejects_authenticated (fun _ => .ok ⟨"u1", "admin", 86400, 0⟩)
      "Bearer tok" [] [("claims", .claims ⟨"u1", "admin", 86400, 0⟩)]
      (by decide) (by decide)⟩

/-- C2: in the protected create-task route `authMiddleware` then
`CreateTask` handler, every request that passes the authentication gate is
answered with 401 `"unauthorized"` and no task is created, because the
gate stores the Claims under the key `"claims"` while the handler reads
the never-set key `"user_id"` — so no task is ever created through the
endpoint, and in particular none with the caller's subject id. -/
theorem createTaskChain_always_unauthorized
    (validateToken : String → Except String Claims)
    (authHeader : String) (ctx0 ctx' : Ctx) (now : Int) (body : Task)
    (huid : ctxGet ctx0 "user_id" = none)
    (hauth : AuthMiddleware validateToken authHeader ctx0 = .next ctx') :
    authThenCreateTask validateToken authHeader ctx0 now body =
      .response 401 "unauthorized" := by
  obtain ⟨claims, hctx⟩ := authMiddleware_next_eq _ _ _ _ hauth
  subst hctx
  unfold authThenCreateTask
  rw [hauth]
  show CreateTaskHandler now (ctxSet ctx0 "claims" (.claims claims)) body =
    .response 401 "unauthorized"
  unfold CreateTaskHandler
  rw [ctxGet_set_ne _ _ _ _ (by decide), huid]

/-- Witness for C2: a validator accepting the token with subject `"u7"`,
header `"Bearer tok"`, empty initial context, a well-formed body — the
endpoint answers 401 `"unauthorized"`. -/
theorem createTaskChain_always_unauthorized_witness :
    ctxGet [] "user_id" = none ∧
      AuthMiddleware (fun _ => .ok ⟨"u7", "user", 86400, 0⟩) "Bearer tok" [] =
        .next [("claims", .claims ⟨"u7", "user", 86400, 0⟩)] ∧
      authThenCreateTask (fun _ => .ok ⟨"u7", "user", 86400, 0⟩) "Bearer tok" [] 0
          { id := "", title := "T", description := "", dueDate := 3600,
            status := "", userID := "deadbeefdeadbeefdeadbeef", createdAt := 0,
            updatedAt := 0 } =
        .response 401 "unauthorized" :=
  ⟨by decide, by decide,
    createTaskChain_always_unauthorized (fun _ => .ok ⟨"u7", "user", 86400, 0⟩)
      "Bearer tok" [] [("claims", .claims ⟨"u7", "user", 86400, 0⟩)] 0
      { id := "", title := "T", description := "", dueDate := 3600,
        status := "", userID := "deadbeefdeadbeefdeadbeef", createdAt := 0,
        updatedAt := 0 }
      (by decide) (by decide)⟩

/-- `userRepository.GetByEmail` (Repository/user_repository.go lines
55-65): `FindOne` by email; `mongo.ErrNoDocuments` is translated to
`(nil, nil)`, i.e. absence is `.ok none`, not an error. -/
def userRepoGetByEmail (store : List User) (email : String) :
    Except String (Option User) :=
  Except.ok (store.find? fun u => u.email = email)

/-- Outcome of `userUseCase.Login`: the Go nil-pointer panic on
`user.Password`, a returned error, or the authenticated user plus
token. -/
inductive LoginResult where
  | panicNilDeref
  | err (msg : String)
  | ok (user : User) (token : String)
deriving DecidableEq, Repr

/-- `userUseCase.Login` (Usecases/user_usecases.go lines 46-62): fetch by
email, mapping a lookup error to `"invalid credentials"`; then call
`comparePasswords(user.Password, password)` with no nil guard — a
`(nil, nil)` fetch result is therefore a nil dereference; a password
mismatch is `"invalid credentials"`; otherwise issue a token from the
user's id and role. -/
def Login (store : List User) (comparePasswords : String → String → Bool)
    (generateToken : String → String → Except String String)
    (email password : String) : LoginResult :=
  match userRepoGetByEmail store email with
  | .error _ => .err "invalid credentials"
  | .ok none => .panicNilDeref
  | .ok (some user) =>
    if ¬ comparePasswords user.password password then .err "invalid credentials"
    else
      match generateToken user.id user.role with
      | .error e => .err e
      | .ok token => .ok user token

/-- C3: for every email not present in the store, `Login` does not return
at all — it dereferences the nil user returned by `GetByEmail` (which
signals absence as `(nil, nil)`), for every password and every
password-comparison and token-generation function. -/
theorem login_unknown_email_panics (store : List User)
    (comparePasswords : String → String → Bool)
    (generateToken : String → String → Except String String)
    (email password : String)
    (habsent : store.find? (fun u => u.email = email) = none) :
    Login store comparePasswords generateToken email password =
      .panicNilDeref := by
  unfold Login userRepoGetByEmail
  rw [habsent]

/-- Witness for C3: an empty user store. -/
theorem login_unknown_email_panics_witness :
    (([] : List User).find? (fun u => u.email = "a@b.com") = none) ∧
      Login [] (fun _ _ => true) (fun _ _ => .ok "tok") "a@b.com" "pw" =
        .panicNilDeref :=
  ⟨by decide,
    login_unknown_email_panics [] (fun _ _ => true) (fun _ _ => .ok "tok")
      "a@b.com" "pw" (by decide)⟩

/-- Serialization of the signed claims into the MAC input. -/
def serializeClaims (userID role : String) (expiresAt issuedAt : Int) : String :=
  userID ++ "|" ++ role ++ "|" ++ toString expiresAt ++ "|" ++ toString issuedAt

/-- A compact signed token: the embedded claims plus the signature over
their serialization. -/
structure SignedToken where
  userID : String
  role : String
  expiresAt : Int
  issuedAt : Int
  sig : String
deriving DecidableEq, Repr

/-- Modelled from the spec: the symmetric-MAC signing performed by the
external jwt library (not part of this repository) is abstracted as a
deterministic function `mac secret payload`. `infrastructure.GenerateToken`
(jwt_service.go lines 23-35) builds Claims with
`ExpiresAt = now + 24h`, `IssuedAt = now` and signs them with the
process-wide secret. -/
def GenerateToken (mac : String → String → String) (secret : String)
    (now : Int) (userID role : String) : SignedToken :=
  { userID := userID, role := role, expiresAt := now + 86400, issuedAt := now,
    sig := mac secret (serializeClaims userID role (now + 86400) now) }

/-- Modelled from the spec: `infrastructure.ValidateToken`
(jwt_service.go lines 38-52) parses the token, verifies the MAC with the
same secret, and checks the standard claims' validity window (not expired:
`now ≤ ExpiresAt`; not used before issue: `IssuedAt ≤ now`), returning the
embedded Claims on success. -/
def ValidateToken (mac : String → String → String) (secret : String)
    (now : Int) (tok : SignedToken) : Except String Claims :=
  if tok.sig = mac secret
      (serializeClaims tok.userID tok.role tok.expiresAt tok.issuedAt) then
    if tok.expiresAt < now then .error "token is expired"
    else if now < tok.issuedAt then .error "token used before issued"
    else .ok ⟨tok.userID, tok.role, tok.expiresAt, tok.issuedAt⟩
  else .error "signature is invalid"

/-- C9: for every subject id and role, validating a token at any time
within the 24-hour TTL of its issue (and no earlier than the issue
instant), under the same signing secret, succeeds and yields Claims whose
subject id and role equal the ones passed to issuance. -/
theorem validateToken_generateToken_roundtrip
    (mac : String → String → String) (secret : String)
    (now t : Int) (userID role : String)
    (hlo : now ≤ t) (hhi : t ≤ now + 86400) :
    ValidateToken mac secret t (GenerateToken mac secret now userID role) =
      .ok ⟨userID, role, now + 86400, now⟩ := by
  unfold ValidateToken GenerateToken
  rw [if_pos rfl, if_neg (by omega : ¬ now + 86400 < t),
    if_neg (by omega : ¬ t < now)]

/-- Witness for C9: a concrete MAC function, secret `"sec"`, issue time
`0`, validation time `10`, subject `"u1"` with role `"admin"`. -/
theorem validateToken_generateToken_roundtrip_witness :
    (0 : Int) ≤ 10 ∧ (10 : Int) ≤ 0 + 86400 ∧
      ValidateToken (fun s p => s ++ "#" ++ p) "sec" 10
          (GenerateToken (fun s p => s ++ "#" ++ p) "sec" 0 "u1" "admin") =
        .ok ⟨"u1", "admin", 0 + 86400, 0⟩ :=
  ⟨by decide, by decide,
    validateToken_generateToken_roundtrip (fun s p => s ++ "#" ++ p) "sec"
      0 10 "u1" "admin" (by decide) (by decide)⟩

/-- A concrete task used to instantiate theorems on explicit inputs. -/
def sampleTask (dueDate : Int) (status : String) : Task :=
  { id := "t1", title := "T", description := "", dueDate := dueDate,
    status := status, userID := "u1", createdAt := 0, updatedAt := 0 }

/-- C7: for every input task with a non-empty title and a due date strictly
in the future of the call time, `CreateTask` delegates to the repository's
`Create` with the task's status forced to `"pending"`, regardless of the
caller-supplied status. -/
theorem createTask_forces_pending (now : Int) (task : Task)
    (htitle : task.title ≠ "") (hfuture : now < task.dueDate) :
    CreateTask now task = .created { task with status := StatusPending } := by
  unfold CreateTask
  rw [if_neg htitle, if_neg (by omega : ¬ task.dueDate < now)]

/-- Witness for C7 at a concrete input: title `"T"`, due date `3600` at
call time `0`, caller-supplied status `"in_progress"`. -/
theorem createTask_forces_pending_witness :
    (sampleTask 3600 StatusInProgress).title ≠ "" ∧ (0 : Int) < 3600 ∧
      CreateTask 0 (sampleTask 3600 StatusInProgress) =
        .created (sampleTask 3600 StatusPending) :=
  ⟨by decide, by decide,
    createTask_forces_pending 0 (sampleTask 3600 StatusInProgress) (by decide) (by decide)⟩

/-- C6 counterexample: a task whose due date equals the call time is
accepted by `CreateTask` (the code's check `DueDate.Before(now)` is strict),
and the repository's `Create` is invoked — the claim says this input is
rejected with the due-date validation error. -/
theorem createTask_dueDate_eq_now_accepted :
    CreateTask 3600 (sampleTask 3600 StatusInProgress) =
      .created (sampleTask 3600 StatusPending) := by decide

/-- C6 amended: for every task with a non-empty title, `CreateTask` fails
with the due-date error exactly when the due date is strictly before the
call time; a due date equal to or after the call time is accepted. -/
theorem createTask_dueDate_guard (now : Int) (task : Task)
    (htitle : task.title ≠ "") :
    (CreateTask now task = .err "due date cannot be in the past" ↔ task.dueDate < now)
    ∧ (¬ task.dueDate < now →
        CreateTask now task = .created { task with status := StatusPending }) := by
  unfold CreateTask
  rw [if_neg htitle]
  by_cases h : task.dueDate < now
  · simp [h]
  · simp [h]

/-- Witness for the amended C6 at call time `10` and due date `5`. -/
theorem createTask_dueDate_guard_witness :
    (sampleTask 5 StatusPending).title ≠ "" ∧
      ((CreateTask 10 (sampleTask 5 StatusPending) = .err "due date cannot be in the past" ↔
          (sampleTask 5 StatusPending).dueDate < 10)
        ∧ (¬ (sampleTask 5 StatusPending).dueDate < 10 →
            CreateTask 10 (sampleTask 5 StatusPending) =
              .created { sampleTask 5 StatusPending with status := StatusPending })) :=
  ⟨by decide, createTask_dueDate_guard 10 (sampleTask 5 StatusPending) (by decide)⟩

/-- C4 counterexample: with a stored task in status `"in_progress"` and an
incoming update (valid title, future due date) carrying status `"pending"`,
`UpdateTask` accepts and delegates to the repository's `Update` — the claim
says every pair outside pending→in_progress, in_progress→completed and
same→same is rejected. -/
theorem updateTask_inProgress_to_pending_accepted :
    UpdateTask [sampleTask 100 StatusInProgress] 0 (sampleTask 100 StatusPending) =
      .updated [sampleTask 100 StatusPending] := by decide

/-- C4 amended: for every existing task and incoming update passing
title/due-date validation, the update is accepted if and only if it is not
the case that the existing status is `"completed"` and the incoming status
differs from `"completed"`; every other transition, including
in_progress→pending and pending→completed, is accepted. -/
theorem updateTask_accepts_iff_not_leaving_completed
    (store : List Task) (now : Int) (task existing : Task)
    (htitle : task.title ≠ "") (hdue : ¬ task.dueDate < now)
    (hfind : store.find? (fun t => t.id = task.id) = some existing) :
    (∃ ns, UpdateTask store now task = .updated ns) ↔
      ¬ (existing.status = StatusCompleted ∧ task.status ≠ StatusCompleted) := by
  unfold UpdateTask taskRepoGetByID
  rw [if_neg htitle, if_neg hdue, hfind]
  by_cases h : existing.status = StatusCompleted ∧ task.status ≠ StatusCompleted
  · simp [h]
  · simp [h]

/-- Witness for the amended C4: stored status `"pending"`, incoming status
`"in_progress"` — the biconditional holds at this concrete input. -/
theorem updateTask_accepts_iff_not_leaving_completed_witness :
    (sampleTask 100 StatusInProgress).title ≠ "" ∧
      ¬ (sampleTask 100 StatusInProgress).dueDate < 0 ∧
      ([sampleTask 100 StatusPending].find?
          (fun t => t.id = (sampleTask 100 StatusInProgress).id) =
        some (sampleTask 100 StatusPending)) ∧
      ((∃ ns, UpdateTask [sampleTask 100 StatusPending] 0 (sampleTask 100 StatusInProgress) =
            .updated ns) ↔
        ¬ ((sampleTask 100 StatusPending).status = StatusCompleted ∧
            (sampleTask 100 StatusInProgress).status ≠ StatusCompleted)) :=
  ⟨by decide, by decide, by decide,
    updateTask_accepts_iff_not_leaving_completed
      [sampleTask 100 StatusPending] 0 (sampleTask 100 StatusInProgress)
      (sampleTask 100 StatusPending) (by decide) (by decide) (by decide)⟩

/-- C5: for every stored task in status `"completed"` and incoming update
with valid title and due date whose status differs from `"completed"`,
`UpdateTask` returns the error `"cannot change status of completed task"`
(so the repository's `Update` is not invoked and the store is unchanged). -/
theorem updateTask_completed_guard
    (store : List Task) (now : Int) (task existing : Task)
    (htitle : task.title ≠ "") (hdue : ¬ task.dueDate < now)
    (hfind : store.find? (fun t => t.id = task.id) = some existing)
    (hcompleted : existing.status = StatusCompleted)
    (hne : task.status ≠ StatusCompleted) :
    UpdateTask store now task = .err "cannot change status of completed task" := by
  unfold UpdateTask taskRepoGetByID
  rw [if_neg htitle, if_neg hdue, hfind]
  simp [hcompleted, hne]

/-- Witness for C5: stored status `"completed"`, incoming status
`"pending"`. -/
theorem updateTask_completed_guard_witness :
    (sampleTask 100 StatusPending).title ≠ "" ∧
      ¬ (sampleTask 100 StatusPending).dueDate < 0 ∧
      ([sampleTask 100 StatusCompleted].find?
          (fun t => t.id = (sampleTask 100 StatusPending).id) =
        some (sampleTask 100 StatusCompleted)) ∧
      (sampleTask 100 StatusCompleted).status = StatusCompleted ∧
      (sampleTask 100 StatusPending).status ≠ StatusCompleted ∧
      UpdateTask [sampleTask 100 StatusCompleted] 0 (sampleTask 100 StatusPending) =
        .err "cannot change status of completed task" :=
  ⟨by decide, by decide, by decide, by decide, by decide,
    updateTask_completed_guard [sampleTask 100 StatusCompleted] 0
      (sampleTask 100 StatusPending) (sampleTask 100 StatusCompleted)
      (by decide) (by decide) (by decide) (by decide) (by decide)⟩

/-- C10: for every update passing title/due-date validation whose task id
matches no stored task, the repository's `GetByID` signals absence as a nil
task with a nil error (`.ok none`) and `UpdateTask` dereferences the nil
result (`existingTask.Status` with no nil guard); when the id is present
the dereference is safe. -/
theorem updateTask_nil_deref_iff_absent (store : List Task) (now : Int) (task : Task)
    (htitle : task.title ≠ "") (hdue : ¬ task.dueDate < now) :
    (store.find? (fun t => t.id = task.id) = none →
        taskRepoGetByID store task.id = .ok none ∧
          UpdateTask store now task = .panicNilDeref)
    ∧ (store.find? (fun t => t.id = task.id) ≠ none →
        UpdateTask store now task ≠ .panicNilDeref) := by
  constructor
  · intro h
    refine ⟨by simp [taskRepoGetByID, h], ?_⟩
    unfold UpdateTask taskRepoGetByID
    rw [if_neg htitle, if_neg hdue, h]
  · intro h
    cases hfind : store.find? (fun t => t.id = task.id) with
    | none => exact absurd hfind h
    | some existing =>
      unfold UpdateTask taskRepoGetByID
      rw [if_neg htitle, if_neg hdue, hfind]
      by_cases hc : existing.status = StatusCompleted ∧ task.status ≠ StatusCompleted
      · simp [hc]
      · simp [hc]

/-- Witness for C10: an empty store, so the task id is absent and the
update run hits the nil dereference. -/
theorem updateTask_nil_deref_iff_absent_witness :
    (sampleTask 100 StatusPending).title ≠ "" ∧
      ¬ (sampleTask 100 StatusPending).dueDate < 0 ∧
      (([] : List Task).find? (fun t => t.id = (sampleTask 100 StatusPending).id) = none →
          taskRepoGetByID [] (sampleTask 100 StatusPending).id = .ok none ∧
            UpdateTask [] 0 (sampleTask 100 StatusPending) = .panicNilDeref) ∧
      (([] : List Task).find? (fun t => t.id = (sampleTask 100 StatusPending).id) ≠ none →
          UpdateTask [] 0 (sampleTask 100 StatusPending) ≠ .panicNilDeref) :=
  ⟨by decide, by decide,
    (updateTask_nil_deref_iff_absent [] 0 (sampleTask 100 StatusPending)
      (by decide) (by decide)).1,
    (updateTask_nil_deref_iff_absent [] 0 (sampleTask 100 StatusPending)
      (by decide) (by decide)).2⟩

end TaskMgmt
